import Mathlib

/-!
Verification development for a per-user document question-answering service.

The storage layer (`store_user_embedding`, `search_user_embeddings`,
`get_user_info`) keeps one FAISS-style vector index per user on disk under
`<save_path>/<user_id>/<user_id>_faiss_index`.  The retrieval tool
(`retrieve_context`) serializes the top-3 matches for the agent, and
`ask_question` drives a streaming agent loop.  The HTTP endpoint
(`ask_question_endpoint`) validates inputs before invoking the agent.

The embedding capability is modelled as an explicit parameter
`embed : String → List Int` (a pure function of the text, as the model
version is pinned); distances are squared L2 distances, matching the
`IndexFlatL2` index used by the code.  The file system is modelled as two
explicit maps: `files` for source text files and `Disk` for persisted
vector stores (with a `corrupt` state standing for files whose
deserialization raises).
-/

/-- Metadata attached to every stored document:
`{"source": ..., "user_id": ..., "filename": ...}`. -/
structure DocMeta where
  source : String
  user_id : String
  filename : String
deriving DecidableEq, Repr

/-- A document record: raw text plus its metadata. -/
structure Document where
  page_content : String
  metadata : DocMeta
deriving DecidableEq, Repr

/-- One entry of a persisted vector store: the generated document id, the
embedding vector computed at `add_documents` time, and the document. -/
structure DocEntry where
  id : String
  vector : List Int
  doc : Document
deriving DecidableEq, Repr

/-- A per-user vector store: the FAISS index together with its docstore,
in insertion order (`index_to_docstore_id` ∪ `docstore`). -/
structure VectorStore where
  entries : List DocEntry
deriving DecidableEq, Repr

/-- State of a persisted index directory: loadable, or present but failing
to deserialize (an exception on `load_local`). -/
inductive FileState where
  | good (vs : VectorStore)
  | corrupt
deriving DecidableEq, Repr

/-- Contents of a source text file: missing, unreadable (read raises), or
readable text. -/
inductive FileContent where
  | absent
  | unreadable
  | readable (text : String)
deriving DecidableEq, Repr

/-- The durable storage for vector indexes, keyed by path. -/
def Disk : Type := String → Option FileState

/-- Fresh storage: no index exists for any user. -/
def emptyDisk : Disk := fun _ => none

/-- Write one path of the storage (what `save_local` does). -/
def updateDisk (disk : Disk) (path : String) (v : FileState) : Disk :=
  fun q => if q = path then some v else disk q

/-- `os.path.join(save_path, str(user_id))`. -/
def userDir (save_path user_id : String) : String :=
  save_path ++ "/" ++ user_id

/-- `os.path.join(user_dir, f"{user_id}_faiss_index")`: the path keyed by
`user_id` under which the user's whole index is persisted. -/
def vectorStorePath (save_path user_id : String) : String :=
  userDir save_path user_id ++ "/" ++ user_id ++ "_faiss_index"

/-- Squared L2 distance between two vectors (`IndexFlatL2` scores). -/
def l2sq (v w : List Int) : Int :=
  ((v.zip w).map (fun p => (p.1 - p.2) * (p.1 - p.2))).sum

/-- Ordering of scored entries by (squared) distance. -/
def scoreLE (a b : DocEntry × Int) : Prop := a.2 ≤ b.2

instance : DecidableRel scoreLE :=
  fun a b => inferInstanceAs (Decidable (a.2 ≤ b.2))

instance : IsTotal (DocEntry × Int) scoreLE :=
  ⟨fun a b => Int.le_total a.2 b.2⟩

instance : IsTrans (DocEntry × Int) scoreLE :=
  ⟨fun _ _ _ hab hbc => le_trans hab hbc⟩

/-- All entries of a store scored against the query vector and ranked by
increasing distance (what the flat index's nearest-neighbor search yields). -/
def rankedCandidates (embed : String → List Int) (vs : VectorStore)
    (query : String) : List (DocEntry × Int) :=
  List.insertionSort scoreLE (vs.entries.map (fun e => (e, l2sq (embed query) e.vector)))

/-- The metadata filter built by `search_user_embeddings`:
`{"user_id": user_id}`, plus `{"source": filter_source}` when
`filter_source` is truthy. -/
def matchesFilter (user_id : String) (filter_source : Option String)
    (m : DocMeta) : Bool :=
  m.user_id == user_id &&
    (match filter_source with
     | none => true
     | some s => if s = "" then true else m.source == s)

/-- `FAISS.similarity_search_with_score(query, k=k, filter=filt)`: fetch the
`fetch_k = 20` nearest entries, apply the metadata filter, return the top
`k` as `(document, score)` pairs ordered by increasing distance. -/
def similarity_search_with_score (embed : String → List Int) (vs : VectorStore)
    (query : String) (k : Nat) (filt : DocMeta → Bool) : List (Document × Int) :=
  ((((rankedCandidates embed vs query).take 20).filter
      (fun p => filt p.1.doc.metadata)).take k).map (fun p => (p.1.doc, p.2))

/-- One formatted search result. -/
structure SearchHit where
  content : String
  metadata : DocMeta
  similarity_score : Int
deriving DecidableEq, Repr

/-- The dictionary returned by `search_user_embeddings`. -/
structure SearchResult where
  status : String
  message : Option String
  error : Option String
  user_id : Option String
  query : Option String
  results : Option (List SearchHit)
  total_results : Option Nat
deriving DecidableEq, Repr

/-- The results list of a search result (`.get("results", [])`). -/
def resultsList (sr : SearchResult) : List SearchHit :=
  sr.results.getD []

/-- `search_user_embeddings(query_text, user_id, k, filter_source, save_path)`. -/
def search_user_embeddings (embed : String → List Int) (disk : Disk)
    (query_text user_id : String) (k : Nat) (filter_source : Option String)
    (save_path : String) : SearchResult :=
  let path := vectorStorePath save_path user_id
  match disk path with
  | none =>
      { status := "error"
        message := some ("No embeddings found for user " ++ user_id)
        error := none, user_id := none, query := none
        results := none, total_results := none }
  | some FileState.corrupt =>
      { status := "error"
        message := some ("Failed to search embeddings for user " ++ user_id)
        error := some "load error", user_id := none, query := none
        results := none, total_results := none }
  | some (FileState.good vs) =>
      let hits := (similarity_search_with_score embed vs query_text k
          (matchesFilter user_id filter_source)).map
        (fun p => { content := p.1.page_content
                    metadata := p.1.metadata
                    similarity_score := p.2 : SearchHit })
      { status := "success"
        message := none, error := none
        user_id := some user_id, query := some query_text
        results := some hits, total_results := some hits.length }

/-- Basename of a path: the part after the last slash
(`os.path.basename`). -/
def basename (p : String) : String :=
  String.mk ((p.data.reverse.takeWhile (fun c => c ≠ '/')).reverse)

/-- `os.path.splitext(p)[1]`: the extension (with its leading dot) of the
basename, empty when the basename has no dot or only leading dots. -/
def splitextExt (p : String) : String :=
  let b := (basename p).data
  let revb := b.reverse
  let afterRev := revb.takeWhile (fun c => c ≠ '.')
  if afterRev.length = revb.length then ""
  else
    let pre := ((revb.dropWhile (fun c => c ≠ '.')).drop 1).reverse
    if pre.any (fun c => c ≠ '.') then String.mk ('.' :: afterRev.reverse)
    else ""

/-- `.lower().replace('.', '')` applied to an extension. -/
def lowerNoDots (s : String) : String :=
  String.mk ((s.data.map Char.toLower).filter (fun c => c ≠ '.'))

/-- The data source recorded for a stored document: the explicit argument
when given, else the lowercased file extension, else the basename. -/
def resolvedDataSource (file_path : String) (data_source : Option String) : String :=
  match data_source with
  | some s => s
  | none =>
      let fileExtension := lowerNoDots (splitextExt file_path)
      if fileExtension = "" then basename file_path else fileExtension

/-- The dictionary returned by `store_user_embedding`. -/
structure StoreResult where
  status : String
  message : Option String
  error : Option String
  document_id : Option String
  user_id : Option String
  data_source : Option String
  storage_path : Option String
deriving DecidableEq, Repr

/-- `store_user_embedding(file_path, user_id, data_source, save_path)`:
reads the source file, loads the user's index if present (or initializes a
fresh empty one), appends the new document under the freshly generated id
`newId`, and persists the index back under the user-keyed path.  Returns
the result dictionary together with the storage state after the call.
This models the function body apart from the `os.makedirs(user_dir,
exist_ok=True)` call between the file read and the first try block; the
call as actually invoked, with that step and its uncaught failure mode,
is `store_user_embedding_full` below. -/
def store_user_embedding (embed : String → List Int)
    (files : String → FileContent) (disk : Disk) (newId : String)
    (file_path user_id : String) (data_source : Option String)
    (save_path : String) : StoreResult × Disk :=
  let ds := resolvedDataSource file_path data_source
  match files file_path with
  | FileContent.absent =>
      ({ status := "error"
         message := some ("Failed to find file " ++ file_path)
         error := some ("File not found: " ++ file_path)
         document_id := none, user_id := none
         data_source := none, storage_path := none }, disk)
  | FileContent.unreadable =>
      ({ status := "error"
         message := some ("Failed to read file " ++ file_path)
         error := some ("Error reading file " ++ file_path)
         document_id := none, user_id := none
         data_source := none, storage_path := none }, disk)
  | FileContent.readable text =>
      let path := vectorStorePath save_path user_id
      let doc : Document :=
        { page_content := text
          metadata := { source := ds, user_id := user_id, filename := file_path } }
      match disk path with
      | some FileState.corrupt =>
          ({ status := "error"
             message := some ("Failed to store embedding for user " ++ user_id)
             error := some "load error"
             document_id := none, user_id := none
             data_source := none, storage_path := none }, disk)
      | some (FileState.good vs) =>
          let vs2 : VectorStore :=
            ⟨vs.entries ++ [{ id := newId, vector := embed text, doc := doc }]⟩
          ({ status := "success"
             message := some ("Successfully stored embedding for user " ++ user_id)
             error := none
             document_id := some newId, user_id := some user_id
             data_source := some ds, storage_path := some path },
           updateDisk disk path (FileState.good vs2))
      | none =>
          let vs2 : VectorStore :=
            ⟨[{ id := newId, vector := embed text, doc := doc }]⟩
          ({ status := "success"
             message := some ("Successfully stored embedding for user " ++ user_id)
             error := none
             document_id := some newId, user_id := some user_id
             data_source := some ds, storage_path := some path },
           updateDisk disk path (FileState.good vs2))

/-- `store_user_embedding` as actually invoked, including the
`os.makedirs(user_dir, exist_ok=True)` call that runs after the source
file has been read but outside both try/except blocks.  `mkdirOk` tells
whether directory creation succeeds for a given directory; when it fails
at that point, the `OSError` propagates to the caller uncaught
(`Except.error`); on every other path the call returns the result
dictionary and storage state of `store_user_embedding`.  The missing-file
and unreadable-file returns happen before the `os.makedirs` call, so they
never raise. -/
def store_user_embedding_full (embed : String → List Int)
    (mkdirOk : String → Bool) (files : String → FileContent) (disk : Disk)
    (newId : String) (file_path user_id : String) (data_source : Option String)
    (save_path : String) : Except String (StoreResult × Disk) :=
  match files file_path with
  | FileContent.absent =>
      Except.ok (store_user_embedding embed files disk newId file_path user_id
        data_source save_path)
  | FileContent.unreadable =>
      Except.ok (store_user_embedding embed files disk newId file_path user_id
        data_source save_path)
  | FileContent.readable _ =>
      if mkdirOk (userDir save_path user_id) then
        Except.ok (store_user_embedding embed files disk newId file_path user_id
          data_source save_path)
      else
        Except.error "OSError"

/-- Insertion-ordered histogram update (Python `dict.get(source, 0) + 1`). -/
def bumpSource (s : String) : List (String × Nat) → List (String × Nat)
  | [] => [(s, 1)]
  | (t, n) :: rest => if t = s then (t, n + 1) :: rest else (t, n) :: bumpSource s rest

/-- Histogram of data sources, in first-seen order. -/
def sourceHistogram (l : List String) : List (String × Nat) :=
  l.foldl (fun acc s => bumpSource s acc) []

/-- The dictionary returned by `get_user_info`. -/
structure InfoResult where
  status : String
  message : Option String
  error : Option String
  user_id : Option String
  total_documents : Option Nat
  storage_path : Option String
  data_sources : Option (List (String × Nat))
  directory_size : Option Nat
deriving DecidableEq, Repr

/-- `get_user_info(user_id, save_path)`: statistics over the user's stored
records.  `dirSize` abstracts the `os.path.getsize` sum over the user's
directory. -/
def get_user_info (dirSize : String → Nat) (disk : Disk)
    (user_id save_path : String) : InfoResult :=
  let path := vectorStorePath save_path user_id
  match disk path with
  | none =>
      { status := "error"
        message := some ("No embeddings found for user " ++ user_id)
        error := none, user_id := none, total_documents := none
        storage_path := none, data_sources := none, directory_size := none }
  | some FileState.corrupt =>
      { status := "error"
        message := some ("Failed to get info for user " ++ user_id)
        error := some "load error", user_id := none, total_documents := none
        storage_path := none, data_sources := none, directory_size := none }
  | some (FileState.good vs) =>
      { status := "success"
        message := none, error := none
        user_id := some user_id
        total_documents := some vs.entries.length
        storage_path := some path
        data_sources := some (sourceHistogram (vs.entries.map (fun e => e.doc.metadata.source)))
        directory_size := some (dirSize (userDir save_path user_id)) }

/-- Python `str` of the metadata dict, as interpolated by
`f"Source: \x7bdoc.metadata\x7d"`. -/
def metaRepr (m : DocMeta) : String :=
  "\x7b\x27source\x27: \x27" ++ m.source ++ "\x27, \x27user_id\x27: \x27" ++
    m.user_id ++ "\x27, \x27filename\x27: \x27" ++ m.filename ++ "\x27\x7d"

/-- One serialized block of the retrieval tool's context. -/
def serializeDoc (d : Document) : String :=
  "Source: " ++ metaRepr d.metadata ++ "\nContent: " ++ d.page_content

/-- `retrieve_context(query, user_id)` (the agent's tool): searches the
user's embeddings with `k = 3` and no source filter, and returns the
serialized context together with the structured documents. -/
def retrieve_context (embed : String → List Int) (disk : Disk)
    (query user_id : String) : String × List Document :=
  let search_results := search_user_embeddings embed disk query user_id 3 none "user_embeddings"
  if search_results.status = "error" then
    ("No documents found for user " ++ user_id ++ ": " ++
       search_results.message.getD "Unknown error", [])
  else
    let retrieved_docs := (resultsList search_results).map
      (fun r => { page_content := r.content, metadata := r.metadata : Document })
    (String.intercalate "\n\n" (retrieved_docs.map serializeDoc), retrieved_docs)

/-- A streamed agent message (only its content matters to `ask_question`). -/
structure AgentMessage where
  content : String
deriving DecidableEq, Repr

/-- The enhanced query `ask_question` sends to the agent. -/
def enhancedQuery (query user_id : String) : String :=
  "User \x27" ++ user_id ++ "\x27 is asking: " ++ query ++
    ". Please retrieve and analyze their relevant documents."

/-- `get_user_config(user_id)`: the per-user memory thread id. -/
def get_user_config (user_id : String) : String :=
  "user_" ++ user_id

/-- The fixed fallback answer of `ask_question`. -/
def fallbackAnswer : String :=
  "I apologize, but I couldn\x27t generate a response. Please try again."

/-- The `response_content` accumulation loop of `ask_question`: for each
streamed event that has messages, append the last message's content when
it is non-empty. -/
def gatherResponse (events : List (List AgentMessage)) : List String :=
  events.foldl
    (fun acc ms =>
      match ms.getLast? with
      | some m => if m.content = "" then acc else acc ++ [m.content]
      | none => acc) []

/-- `ask_question(query, user_id)`: streams the agent on the enhanced query
under the user's thread and returns the last collected response, or the
fixed apology when nothing was collected.  The agent stream is an oracle
parameter mapping (enhanced query, thread id) to the streamed events. -/
def ask_question (agentStream : String → String → List (List AgentMessage))
    (query user_id : String) : String :=
  let events := agentStream (enhancedQuery query user_id) (get_user_config user_id)
  let response_content := gatherResponse events
  match response_content.getLast? with
  | some s => s
  | none => fallbackAnswer

/-- The request body of the `/chat/agent` endpoint. -/
structure NexusFlowRequest where
  user_id : String
  query : String
deriving DecidableEq, Repr

/-- Outcome of the endpoint: an HTTP error (status code, detail) or a
successful response carrying the answer. -/
inductive EndpointResult where
  | httpError (statusCode : Nat) (detail : String)
  | ok (response : String)
deriving DecidableEq, Repr

/-- Python `s.strip() == ""`: every character is whitespace. -/
def stripIsEmpty (s : String) : Bool :=
  s.data.all (fun c => c.isWhitespace)

/-- `ask_question_endpoint(request)`: validates that query and user id are
non-empty (after stripping) before delegating to `ask_question`, modelled
here by the oracle `askFn`. -/
def ask_question_endpoint (askFn : String → String → String)
    (req : NexusFlowRequest) : EndpointResult :=
  if req.query = "" || stripIsEmpty req.query then
    EndpointResult.httpError 400 "Query cannot be empty"
  else if req.user_id = "" || stripIsEmpty req.user_id then
    EndpointResult.httpError 400 "User ID cannot be empty"
  else
    EndpointResult.ok (askFn req.query req.user_id)

/-- The operations of the storage core, as invoked with the default
`save_path = "user_embeddings"`. -/
inductive Op where
  | storeDoc (files : String → FileContent) (newId file_path user_id : String)
      (data_source : Option String)
  | searchDocs (query user_id : String) (k : Nat) (filter_source : Option String)
  | describeUser (user_id : String)

/-- Whether an operation is a store (the only mutating operation). -/
def isStoreOp : Op → Bool
  | Op.storeDoc _ _ _ _ _ => true
  | Op.searchDocs _ _ _ _ => false
  | Op.describeUser _ => false

/-- Effect of one operation on durable storage: `search_user_embeddings`
and `get_user_info` never write, `store_user_embedding` returns the
updated storage. -/
def applyOp (embed : String → List Int) (disk : Disk) : Op → Disk
  | Op.storeDoc files newId fp uid ds =>
      (store_user_embedding embed files disk newId fp uid ds "user_embeddings").2
  | Op.searchDocs _ _ _ _ => disk
  | Op.describeUser _ => disk

/-- Effect of a sequence of operations. -/
def applyOps (embed : String → List Int) (disk : Disk) (ops : List Op) : Disk :=
  ops.foldl (fun d op => applyOp embed d op) disk

/-- Storage states reachable by this core from fresh storage. -/
inductive Reachable (embed : String → List Int) : Disk → Prop
  | init : Reachable embed emptyDisk
  | step (disk : Disk) (op : Op) :
      Reachable embed disk → Reachable embed (applyOp embed disk op)

/-- Number of documents in a user's persisted index (0 when absent). -/
def countDocs (disk : Disk) (save_path user_id : String) : Nat :=
  match disk (vectorStorePath save_path user_id) with
  | some (FileState.good vs) => vs.entries.length
  | _ => 0

/-- Entries currently persisted for a user (empty when absent). -/
def entriesAt (disk : Disk) (save_path user_id : String) : List DocEntry :=
  match disk (vectorStorePath save_path user_id) with
  | some (FileState.good vs) => vs.entries
  | _ => []

/-- Healthy storage: no corrupt index, and every persisted index under the
default base path is non-empty and owns only its user's records. -/
def GoodDisk (disk : Disk) : Prop :=
  (∀ p, disk p ≠ some FileState.corrupt) ∧
  (∀ uid vs, disk (vectorStorePath "user_embeddings" uid) = some (FileState.good vs) →
    vs.entries ≠ [] ∧ ∀ e ∈ vs.entries, e.doc.metadata.user_id = uid)

/-- The entry `store_user_embedding` appends for a readable source file. -/
def storedEntry (embed : String → List Int) (newId fp uid : String)
    (ds : Option String) (text : String) : DocEntry :=
  { id := newId, vector := embed text
    doc := { page_content := text
             metadata := { source := resolvedDataSource fp ds
                           user_id := uid, filename := fp } } }

/-- A concrete embedding capability used to exercise the definitions on
closed inputs: the one-dimensional text-length embedding. -/
def embedW : String → List Int := fun s => [Int.ofNat s.length]

/-- A concrete source-file system: every path holds the same passport
text. -/
def filesW : String → FileContent :=
  fun _ => FileContent.readable "Passport number A1234567"

/-- A concrete directory-size oracle. -/
def dirSizeW : String → Nat := fun _ => 0

/-- Storage after storing one passport document for user `U1`. -/
def diskW : Disk :=
  (store_user_embedding embedW filesW emptyDisk "doc-1" "passport.txt" "U1"
    none "user_embeddings").2

/-- Distinct users are persisted under distinct paths: the path schema
`<save_path>/<uid>/<uid>_faiss_index` is injective in the user id. -/
theorem vectorStorePath_inj (sp : String) {a b : String}
    (h : vectorStorePath sp a = vectorStorePath sp b) : a = b := by
  have hd := congrArg String.data h
  simp only [vectorStorePath, userDir, String.data_append, List.append_assoc] at hd
  have hlen := congrArg List.length hd
  simp only [List.length_append] at hlen
  have hab : a.data.length = b.data.length := by omega
  have h1 := List.append_cancel_left hd
  have h2 := List.append_cancel_left h1
  have h3 : a.data = b.data := (List.append_inj h2 hab).1
  have h4 : String.mk a.data = String.mk b.data := congrArg String.mk h3
  exact h4

/-- Shape of a successful store: when the source file is readable and the
persisted index (if any) loads, the call succeeds and rewrites the user's
path with the old entries plus the new one. -/
theorem store_success_shape (embed : String → List Int)
    (files : String → FileContent) (disk : Disk) (newId fp uid : String)
    (ds : Option String) (sp text : String)
    (hread : files fp = FileContent.readable text)
    (hnc : disk (vectorStorePath sp uid) ≠ some FileState.corrupt) :
    store_user_embedding embed files disk newId fp uid ds sp =
      ({ status := "success"
         message := some ("Successfully stored embedding for user " ++ uid)
         error := none
         document_id := some newId, user_id := some uid
         data_source := some (resolvedDataSource fp ds)
         storage_path := some (vectorStorePath sp uid) },
       updateDisk disk (vectorStorePath sp uid)
         (FileState.good ⟨entriesAt disk sp uid ++ [storedEntry embed newId fp uid ds text]⟩)) := by
  cases hdisk : disk (vectorStorePath sp uid) with
  | none =>
      simp [store_user_embedding, entriesAt, storedEntry, hread, hdisk]
  | some fs =>
      cases fs with
      | good vs =>
          simp [store_user_embedding, entriesAt, storedEntry, hread, hdisk]
      | corrupt => exact absurd hdisk hnc

/-- A store either leaves durable storage unchanged (error) or rewrites
exactly the stored user's path, appending one entry. -/
theorem store_snd_cases (embed : String → List Int)
    (files : String → FileContent) (disk : Disk) (newId fp uid : String)
    (ds : Option String) (sp : String) :
    (store_user_embedding embed files disk newId fp uid ds sp).2 = disk ∨
    ∃ text, files fp = FileContent.readable text ∧
      disk (vectorStorePath sp uid) ≠ some FileState.corrupt ∧
      (store_user_embedding embed files disk newId fp uid ds sp).2 =
        updateDisk disk (vectorStorePath sp uid)
          (FileState.good ⟨entriesAt disk sp uid ++ [storedEntry embed newId fp uid ds text]⟩) := by
  cases hread : files fp with
  | absent => left; simp [store_user_embedding, hread]
  | unreadable => left; simp [store_user_embedding, hread]
  | readable text =>
      cases hdisk : disk (vectorStorePath sp uid) with
      | none =>
          right
          exact ⟨text, rfl, by simp [hdisk],
            by rw [store_success_shape embed files disk newId fp uid ds sp text hread (by simp [hdisk])]⟩
      | some fs =>
          cases fs with
          | good vs =>
              right
              exact ⟨text, rfl, by simp [hdisk],
                by rw [store_success_shape embed files disk newId fp uid ds sp text hread (by simp [hdisk])]⟩
          | corrupt => left; simp [store_user_embedding, hread, hdisk]

/-- An erroring store leaves durable storage unchanged, and a store only
errors on a missing/unreadable source file or an unloadable index. -/
theorem store_error_shape (embed : String → List Int)
    (files : String → FileContent) (disk : Disk) (newId fp uid : String)
    (ds : Option String) (sp : String)
    (herr : (store_user_embedding embed files disk newId fp uid ds sp).1.status = "error") :
    (store_user_embedding embed files disk newId fp uid ds sp).2 = disk ∧
    (files fp = FileContent.absent ∨ files fp = FileContent.unreadable ∨
      disk (vectorStorePath sp uid) = some FileState.corrupt) := by
  cases hread : files fp with
  | absent => exact ⟨by simp [store_user_embedding, hread], Or.inl rfl⟩
  | unreadable => exact ⟨by simp [store_user_embedding, hread], Or.inr (Or.inl rfl)⟩
  | readable text =>
      cases hdisk : disk (vectorStorePath sp uid) with
      | none =>
          rw [store_success_shape embed files disk newId fp uid ds sp text hread (by simp [hdisk])] at herr
          simp at herr
      | some fs =>
          cases fs with
          | good vs =>
              rw [store_success_shape embed files disk newId fp uid ds sp text hread (by simp [hdisk])] at herr
              simp at herr
          | corrupt =>
              exact ⟨by simp [store_user_embedding, hread, hdisk], Or.inr (Or.inr rfl)⟩

/-- Every hit returned by a search for `user_id` carries that user's id in
its metadata: the `{"user_id": user_id}` filter is always applied. -/
theorem search_hits_user_id (embed : String → List Int) (disk : Disk)
    (q u sp : String) (k : Nat) (fsrc : Option String) :
    ∀ hit ∈ resultsList (search_user_embeddings embed disk q u k fsrc sp),
      hit.metadata.user_id = u := by
  intro hit hmem
  cases hdisk : disk (vectorStorePath sp u) with
  | none => simp [resultsList, search_user_embeddings, hdisk] at hmem
  | some fs =>
    cases fs with
    | corrupt => simp [resultsList, search_user_embeddings, hdisk] at hmem
    | good vs =>
      simp only [resultsList, search_user_embeddings, hdisk, Option.getD_some,
        similarity_search_with_score, List.map_map, List.mem_map] at hmem
      obtain ⟨x, hx, hhit⟩ := hmem
      have hx2 := List.mem_of_mem_take hx
      have hpred := (List.mem_filter.mp hx2).2
      simp only [matchesFilter, Bool.and_eq_true, beq_iff_eq] at hpred
      subst hhit
      simpa using hpred.1

/-- Searches read only the searched user's path: writing any other path
leaves the search result unchanged. -/
theorem search_update_other_path (embed : String → List Int) (disk : Disk)
    (q u sp : String) (k : Nat) (fsrc : Option String) (p : String)
    (v : FileState) (hne : vectorStorePath sp u ≠ p) :
    search_user_embeddings embed (updateDisk disk p v) q u k fsrc sp =
      search_user_embeddings embed disk q u k fsrc sp := by
  have hsame : updateDisk disk p v (vectorStorePath sp u) = disk (vectorStorePath sp u) := by
    simp [updateDisk, hne]
  simp only [search_user_embeddings, hsame]

/-- A search returns at most `k` results. -/
theorem search_results_length_le (embed : String → List Int) (disk : Disk)
    (q u sp : String) (k : Nat) (fsrc : Option String) :
    (resultsList (search_user_embeddings embed disk q u k fsrc sp)).length ≤ k := by
  cases hdisk : disk (vectorStorePath sp u) with
  | none => simp [resultsList, search_user_embeddings, hdisk]
  | some fs =>
    cases fs with
    | corrupt => simp [resultsList, search_user_embeddings, hdisk]
    | good vs =>
      simp only [resultsList, search_user_embeddings, hdisk, Option.getD_some,
        similarity_search_with_score, List.length_map]
      exact List.length_take_le _ _

/-- Search results are ordered by increasing (squared L2) distance. -/
theorem search_results_sorted (embed : String → List Int) (disk : Disk)
    (q u sp : String) (k : Nat) (fsrc : Option String) :
    List.Sorted (fun a b => a ≤ b)
      ((resultsList (search_user_embeddings embed disk q u k fsrc sp)).map
        SearchHit.similarity_score) := by
  cases hdisk : disk (vectorStorePath sp u) with
  | none => simp [resultsList, search_user_embeddings, hdisk]
  | some fs =>
    cases fs with
    | corrupt => simp [resultsList, search_user_embeddings, hdisk]
    | good vs =>
      simp only [resultsList, search_user_embeddings, hdisk, Option.getD_some,
        similarity_search_with_score, List.map_map]
      have h0 : List.Sorted scoreLE (rankedCandidates embed vs q) :=
        List.sorted_insertionSort scoreLE _
      have hsub : List.Sublist
          ((((rankedCandidates embed vs q).take 20).filter
            (fun p => matchesFilter u fsrc p.1.doc.metadata)).take k)
          (rankedCandidates embed vs q) :=
        ((List.take_sublist _ _).trans (List.filter_sublist _)).trans (List.take_sublist _ _)
      have h1 := List.Pairwise.sublist hsub h0
      exact h1.map _ (fun a b hab => hab)

/-- On a reachable, healthy index a search with positive `k` never returns
an empty result list: all of the user's entries pass the user filter. -/
theorem search_nonempty_of_good (embed : String → List Int) (disk : Disk)
    (q u : String) (k : Nat) (vs : VectorStore) (hk : 0 < k)
    (hdisk : disk (vectorStorePath "user_embeddings" u) = some (FileState.good vs))
    (hne : vs.entries ≠ [])
    (hall : ∀ e ∈ vs.entries, e.doc.metadata.user_id = u) :
    resultsList (search_user_embeddings embed disk q u k none "user_embeddings") ≠ [] := by
  have hperm : (rankedCandidates embed vs q).Perm
      (vs.entries.map (fun e => (e, l2sq (embed q) e.vector))) :=
    List.perm_insertionSort _ _
  have hlen : (rankedCandidates embed vs q).length = vs.entries.length := by
    have := hperm.length_eq
    simpa using this
  have hrne : rankedCandidates embed vs q ≠ [] := by
    intro h0
    rw [h0] at hlen
    exact hne (List.eq_nil_of_length_eq_zero hlen.symm)
  have htake20 : (rankedCandidates embed vs q).take 20 ≠ [] := by
    intro h0
    rcases List.take_eq_nil_iff.mp h0 with h | h
    · exact absurd h (by norm_num)
    · exact hrne h
  have hfilter_all : ∀ x ∈ (rankedCandidates embed vs q).take 20,
      matchesFilter u none x.1.doc.metadata = true := by
    intro x hx
    have hx2 : x ∈ rankedCandidates embed vs q := List.mem_of_mem_take hx
    have hx3 := hperm.mem_iff.mp hx2
    obtain ⟨e, he, rfl⟩ := List.mem_map.mp hx3
    simp [matchesFilter, hall e he]
  have hfiltered : ((rankedCandidates embed vs q).take 20).filter
      (fun p => matchesFilter u none p.1.doc.metadata) =
      (rankedCandidates embed vs q).take 20 :=
    List.filter_eq_self.mpr hfilter_all
  simp only [resultsList, search_user_embeddings, hdisk, Option.getD_some,
    similarity_search_with_score, List.map_map, ne_eq, List.map_eq_nil_iff]
  rw [hfiltered]
  intro h0
  rcases List.take_eq_nil_iff.mp h0 with h | h
  · omega
  · exact htake20 h

/-- Fresh storage is healthy. -/
theorem goodDisk_empty : GoodDisk emptyDisk :=
  ⟨fun p => by simp [emptyDisk], fun uid vs h => by simp [emptyDisk] at h⟩

/-- The records persisted for a user all carry that user's id, on healthy
storage. -/
theorem entriesAt_user (disk : Disk) (h : GoodDisk disk) (uid : String) :
    ∀ e ∈ entriesAt disk "user_embeddings" uid, e.doc.metadata.user_id = uid := by
  intro e he
  cases hdisk : disk (vectorStorePath "user_embeddings" uid) with
  | none => simp [entriesAt, hdisk] at he
  | some fs =>
    cases fs with
    | corrupt => simp [entriesAt, hdisk] at he
    | good vs =>
      simp only [entriesAt, hdisk] at he
      exact (h.2 uid vs hdisk).2 e he

/-- Every operation of the core preserves healthy storage. -/
theorem goodDisk_applyOp (embed : String → List Int) (disk : Disk)
    (h : GoodDisk disk) (op : Op) : GoodDisk (applyOp embed disk op) := by
  cases op with
  | searchDocs q u k fsrc => simpa [applyOp] using h
  | describeUser u => simpa [applyOp] using h
  | storeDoc files newId fp uid ds =>
    simp only [applyOp]
    rcases store_snd_cases embed files disk newId fp uid ds "user_embeddings" with
      heq | ⟨text, hread, hnc, heq⟩
    · rw [heq]; exact h
    · rw [heq]
      refine ⟨fun p => ?_, fun uid2 vs2 hvs2 => ?_⟩
      · by_cases hp : p = vectorStorePath "user_embeddings" uid
        · subst hp; simp [updateDisk]
        · simpa [updateDisk, hp] using h.1 p
      · by_cases hp : vectorStorePath "user_embeddings" uid2 =
            vectorStorePath "user_embeddings" uid
        · have huid : uid2 = uid := vectorStorePath_inj _ hp
          subst huid
          simp only [updateDisk, hp, if_pos, Option.some.injEq, FileState.good.injEq] at hvs2
          refine ⟨?_, ?_⟩
          · rw [← hvs2]; simp
          · intro e he
            rw [← hvs2] at he
            simp only [VectorStore.entries] at he
            rcases List.mem_append.mp he with h1 | h1
            · exact entriesAt_user disk h uid2 e h1
            · simp only [List.mem_singleton] at h1
              subst h1
              rfl
        · exact h.2 uid2 vs2 (by simpa [updateDisk, hp] using hvs2)

/-- Every storage state this core can reach is healthy. -/
theorem reachable_goodDisk (embed : String → List Int) (disk : Disk)
    (h : Reachable embed disk) : GoodDisk disk := by
  induction h with
  | init => exact goodDisk_empty
  | step disk op hr ih => exact goodDisk_applyOp embed disk ih op

/-- Claim C1: cross-user isolation.  Storing a document for user `A` never
changes what a search for a different user `B` returns (each user's index
lives under a path keyed by the user id), and every result a search for
`B` ever returns carries `B` in its metadata (the search filters on
metadata user id), so a document stored for `A` is never contained in
`B`'s results. -/
theorem c1_cross_user_isolation (embed : String → List Int)
    (files : String → FileContent) (disk : Disk) (newId file_path A B : String)
    (ds : Option String) (q sp : String) (k : Nat) (fsrc : Option String)
    (hAB : A ≠ B) :
    search_user_embeddings embed
        ((store_user_embedding embed files disk newId file_path A ds sp).2)
        q B k fsrc sp
      = search_user_embeddings embed disk q B k fsrc sp ∧
    ∀ hit ∈ resultsList (search_user_embeddings embed disk q B k fsrc sp),
      hit.metadata.user_id = B := by
  refine ⟨?_, search_hits_user_id embed disk q B sp k fsrc⟩
  rcases store_snd_cases embed files disk newId file_path A ds sp with
    heq | ⟨text, hread, hnc, heq⟩
  · rw [heq]
  · rw [heq]
    exact search_update_other_path embed disk q B sp k fsrc _ _
      (fun hcontra => hAB (vectorStorePath_inj sp hcontra).symm)

/-- Concrete instance of C1: storing a passport for `U1` leaves `U2`'s
search results untouched. -/
theorem c1_cross_user_isolation_witness :
    "U1" ≠ "U2" ∧
    (search_user_embeddings embedW
        ((store_user_embedding embedW filesW emptyDisk "doc-1" "passport.txt" "U1"
          none "user_embeddings").2)
        "What is my passport number?" "U2" 3 none "user_embeddings"
      = search_user_embeddings embedW emptyDisk "What is my passport number?" "U2" 3
          none "user_embeddings" ∧
    ∀ hit ∈ resultsList (search_user_embeddings embedW emptyDisk
        "What is my passport number?" "U2" 3 none "user_embeddings"),
      hit.metadata.user_id = "U2") :=
  ⟨by decide,
   c1_cross_user_isolation embedW filesW emptyDisk "doc-1" "passport.txt" "U1" "U2"
     none "What is my passport number?" "user_embeddings" 3 none (by decide)⟩

/-- Claim C2: soft-fail retrieval.  On every reachable storage state, when
the underlying search errors (no index for the user) or yields zero
results, `retrieve_context` returns the human-readable no-documents
message as the serialized context together with an empty document list;
being a total function it surfaces no exception to the agent. -/
theorem c2_soft_fail_retrieval (embed : String → List Int) (disk : Disk)
    (q u : String) (hreach : Reachable embed disk)
    (hfail : (search_user_embeddings embed disk q u 3 none "user_embeddings").status = "error" ∨
      resultsList (search_user_embeddings embed disk q u 3 none "user_embeddings") = []) :
    retrieve_context embed disk q u =
      ("No documents found for user " ++ u ++ ": " ++
        ("No embeddings found for user " ++ u), []) := by
  have hgood := reachable_goodDisk embed disk hreach
  cases hdisk : disk (vectorStorePath "user_embeddings" u) with
  | none =>
      simp [retrieve_context, search_user_embeddings, hdisk]
  | some fs =>
    cases fs with
    | corrupt => exact absurd hdisk (hgood.1 _)
    | good vs =>
      obtain ⟨hne, hall⟩ := hgood.2 u vs hdisk
      have hnonempty := search_nonempty_of_good embed disk q u 3 vs (by norm_num)
        hdisk hne hall
      rcases hfail with hstat | hres
      · simp [search_user_embeddings, hdisk] at hstat
      · exact absurd hres hnonempty

/-- Concrete instance of C2: retrieval for a user with no stored documents
degrades to the no-documents message. -/
theorem c2_soft_fail_retrieval_witness :
    Reachable embedW emptyDisk ∧
    ((search_user_embeddings embedW emptyDisk "hello" "U1" 3 none "user_embeddings").status = "error" ∨
      resultsList (search_user_embeddings embedW emptyDisk "hello" "U1" 3 none "user_embeddings") = []) ∧
    retrieve_context embedW emptyDisk "hello" "U1" =
      ("No documents found for user " ++ "U1" ++ ": " ++
        ("No embeddings found for user " ++ "U1"), []) :=
  ⟨Reachable.init, Or.inl (by decide),
   c2_soft_fail_retrieval embedW emptyDisk "hello" "U1" Reachable.init
     (Or.inl (by decide))⟩

/-- Claim C3: retrieval contract.  `retrieve_context` delegates to the
vector-store search with `k = 3` and no source filter (the metadata filter
on the user id is applied inside the search), and serializes the returned
hits, in ranked order, as one block per hit of the form
`Source: <metadata>` newline `Content: <content>`, blocks joined by a
blank line. -/
theorem c3_retrieval_contract (embed : String → List Int) (disk : Disk)
    (q u : String) (hits : List SearchHit)
    (hres : (search_user_embeddings embed disk q u 3 none "user_embeddings").results = some hits) :
    retrieve_context embed disk q u =
      (String.intercalate "\n\n"
        (hits.map (fun hit =>
          "Source: " ++ metaRepr hit.metadata ++ "\nContent: " ++ hit.content)),
       hits.map (fun hit =>
         { page_content := hit.content, metadata := hit.metadata : Document })) := by
  cases hdisk : disk (vectorStorePath "user_embeddings" u) with
  | none => simp [search_user_embeddings, hdisk] at hres
  | some fs =>
    cases fs with
    | corrupt => simp [search_user_embeddings, hdisk] at hres
    | good vs =>
      have hstat : (search_user_embeddings embed disk q u 3 none "user_embeddings").status
          = "success" := by
        simp [search_user_embeddings, hdisk]
      simp only [retrieve_context, resultsList, hres, hstat, Option.getD_some,
        List.map_map]
      rw [if_neg (by decide)]
      exact congrArg₂ Prod.mk
        (congrArg _ (List.map_congr_left (fun hit _ => rfl))) rfl

/-- Concrete instance of C3: one stored passport document is serialized as
a single `Source:`/`Content:` block. -/
theorem c3_retrieval_contract_witness :
    (search_user_embeddings embedW diskW "pass" "U1" 3 none "user_embeddings").results =
      some [{ content := "Passport number A1234567"
              metadata := { source := "txt", user_id := "U1", filename := "passport.txt" }
              similarity_score := 400 }] ∧
    retrieve_context embedW diskW "pass" "U1" =
      (String.intercalate "\n\n"
        (([{ content := "Passport number A1234567"
             metadata := { source := "txt", user_id := "U1", filename := "passport.txt" }
             similarity_score := 400 }] : List SearchHit).map (fun hit =>
          "Source: " ++ metaRepr hit.metadata ++ "\nContent: " ++ hit.content)),
       ([{ content := "Passport number A1234567"
           metadata := { source := "txt", user_id := "U1", filename := "passport.txt" }
           similarity_score := 400 }] : List SearchHit).map (fun hit =>
         { page_content := hit.content, metadata := hit.metadata : Document })) :=
  ⟨by decide,
   c3_retrieval_contract embedW diskW "pass" "U1"
     [{ content := "Passport number A1234567"
        metadata := { source := "txt", user_id := "U1", filename := "passport.txt" }
        similarity_score := 400 }] (by decide)⟩

/-- Claim C4: not-found on read operations.  When no index exists on
durable storage for a user, `search_user_embeddings` and `get_user_info`
both fail with the `No embeddings found` error outcome, and the search
result does not depend on the embedding capability (no embedding or
nearest-neighbor work is performed); when an index does exist and loads,
search succeeds with at most `k` results ordered by increasing
distance. -/
theorem c4_not_found_on_read (embed embed2 : String → List Int) (disk : Disk)
    (q u sp : String) (k : Nat) (fsrc : Option String) (dirSize : String → Nat) :
    (disk (vectorStorePath sp u) = none →
      (search_user_embeddings embed disk q u k fsrc sp).status = "error" ∧
      (search_user_embeddings embed disk q u k fsrc sp).message =
        some ("No embeddings found for user " ++ u) ∧
      (get_user_info dirSize disk u sp).status = "error" ∧
      (get_user_info dirSize disk u sp).message =
        some ("No embeddings found for user " ++ u) ∧
      search_user_embeddings embed disk q u k fsrc sp =
        search_user_embeddings embed2 disk q u k fsrc sp) ∧
    (∀ vs, disk (vectorStorePath sp u) = some (FileState.good vs) →
      (search_user_embeddings embed disk q u k fsrc sp).status = "success" ∧
      (resultsList (search_user_embeddings embed disk q u k fsrc sp)).length ≤ k ∧
      List.Sorted (fun a b => a ≤ b)
        ((resultsList (search_user_embeddings embed disk q u k fsrc sp)).map
          SearchHit.similarity_score)) := by
  constructor
  · intro hdisk
    refine ⟨?_, ?_, ?_, ?_, ?_⟩ <;> simp [search_user_embeddings, get_user_info, hdisk]
  · intro vs hdisk
    exact ⟨by simp [search_user_embeddings, hdisk],
      search_results_length_le embed disk q u sp k fsrc,
      search_results_sorted embed disk q u sp k fsrc⟩

/-- Concrete instance of C4: on fresh storage both read operations report
the not-found error without touching the embedding capability. -/
theorem c4_not_found_on_read_witness :
    emptyDisk (vectorStorePath "user_embeddings" "U1") = none ∧
    ((search_user_embeddings embedW emptyDisk "hello" "U1" 3 none "user_embeddings").status = "error" ∧
     (search_user_embeddings embedW emptyDisk "hello" "U1" 3 none "user_embeddings").message =
       some ("No embeddings found for user " ++ "U1") ∧
     (get_user_info dirSizeW emptyDisk "U1" "user_embeddings").status = "error" ∧
     (get_user_info dirSizeW emptyDisk "U1" "user_embeddings").message =
       some ("No embeddings found for user " ++ "U1") ∧
     search_user_embeddings embedW emptyDisk "hello" "U1" 3 none "user_embeddings" =
       search_user_embeddings (fun _ => []) emptyDisk "hello" "U1" 3 none "user_embeddings") :=
  ⟨rfl,
   (c4_not_found_on_read embedW (fun _ => []) emptyDisk "hello" "U1" "user_embeddings"
     3 none dirSizeW).1 rfl⟩

/-- Claim C5: store contract.  With a readable source file and a loadable
(or absent) index, `store_user_embedding` loads the user's existing
entries (or starts from none), appends one new entry under the freshly
generated id, persists the whole index back under the path keyed by the
user id, touches no other path, and succeeds; and a store only ever
errors on a source-file read failure or an index load failure — never
with the not-found outcome. -/
theorem c5_store_contract (embed : String → List Int)
    (files : String → FileContent) (disk : Disk) (newId fp uid : String)
    (ds : Option String) (sp text : String)
    (hread : files fp = FileContent.readable text)
    (hload : disk (vectorStorePath sp uid) ≠ some FileState.corrupt) :
    (store_user_embedding embed files disk newId fp uid ds sp).1.status = "success" ∧
    (store_user_embedding embed files disk newId fp uid ds sp).1.document_id = some newId ∧
    (store_user_embedding embed files disk newId fp uid ds sp).1.storage_path =
      some (vectorStorePath sp uid) ∧
    (store_user_embedding embed files disk newId fp uid ds sp).2 (vectorStorePath sp uid) =
      some (FileState.good
        ⟨entriesAt disk sp uid ++ [storedEntry embed newId fp uid ds text]⟩) ∧
    (∀ p, p ≠ vectorStorePath sp uid →
      (store_user_embedding embed files disk newId fp uid ds sp).2 p = disk p) ∧
    (∀ (files2 : String → FileContent) (disk2 : Disk) (newId2 fp2 uid2 : String)
        (ds2 : Option String) (sp2 : String),
      (store_user_embedding embed files2 disk2 newId2 fp2 uid2 ds2 sp2).1.status = "error" →
      files2 fp2 = FileContent.absent ∨ files2 fp2 = FileContent.unreadable ∨
        disk2 (vectorStorePath sp2 uid2) = some FileState.corrupt) := by
  have hs := store_success_shape embed files disk newId fp uid ds sp text hread hload
  refine ⟨?_, ?_, ?_, ?_, ?_, ?_⟩
  · rw [hs]
  · rw [hs]
  · rw [hs]
  · rw [hs]; simp [updateDisk]
  · intro p hp; rw [hs]; simp [updateDisk, hp]
  · intro files2 disk2 newId2 fp2 uid2 ds2 sp2 herr
    exact (store_error_shape embed files2 disk2 newId2 fp2 uid2 ds2 sp2 herr).2

/-- Concrete instance of C5: storing the passport file for `U1` succeeds
and reports the generated id. -/
theorem c5_store_contract_witness :
    filesW "passport.txt" = FileContent.readable "Passport number A1234567" ∧
    emptyDisk (vectorStorePath "user_embeddings" "U1") ≠ some FileState.corrupt ∧
    ((store_user_embedding embedW filesW emptyDisk "doc-1" "passport.txt" "U1"
        none "user_embeddings").1.status = "success" ∧
     (store_user_embedding embedW filesW emptyDisk "doc-1" "passport.txt" "U1"
        none "user_embeddings").1.document_id = some "doc-1") :=
  ⟨rfl, by decide,
   ⟨(c5_store_contract embedW filesW emptyDisk "doc-1" "passport.txt" "U1" none
      "user_embeddings" "Passport number A1234567" rfl (by decide)).1,
    (c5_store_contract embedW filesW emptyDisk "doc-1" "passport.txt" "U1" none
      "user_embeddings" "Passport number A1234567" rfl (by decide)).2.1⟩⟩

/-- Claim C6: empty-input validation.  A request whose query strips to
empty is rejected with the 400 `Query cannot be empty` validation error,
and a request whose user id strips to empty is rejected with a 400
validation error; in both cases the outcome does not depend on the
downstream ask capability, i.e. the rejection happens before any storage,
embedding, or generation call. -/
theorem c6_empty_input_validation (askF askG : String → String → String)
    (req : NexusFlowRequest) :
    (stripIsEmpty req.query = true →
      ask_question_endpoint askF req =
        EndpointResult.httpError 400 "Query cannot be empty" ∧
      ask_question_endpoint askF req = ask_question_endpoint askG req) ∧
    (stripIsEmpty req.user_id = true →
      (∃ d, ask_question_endpoint askF req = EndpointResult.httpError 400 d) ∧
      ask_question_endpoint askF req = ask_question_endpoint askG req) := by
  constructor
  · intro hq
    constructor <;> simp [ask_question_endpoint, hq]
  · intro hu
    by_cases hq : stripIsEmpty req.query = true
    · refine ⟨⟨"Query cannot be empty", ?_⟩, ?_⟩ <;> simp [ask_question_endpoint, hq]
    · have hqb : stripIsEmpty req.query = false := by
        cases hb : stripIsEmpty req.query with
        | false => rfl
        | true => exact absurd hb hq
      have hqne : req.query ≠ "" := by
        intro h0
        rw [h0] at hqb
        simp [stripIsEmpty] at hqb
      refine ⟨⟨"User ID cannot be empty", ?_⟩, ?_⟩ <;>
        simp [ask_question_endpoint, hqb, hqne, hu]

/-- Concrete instance of C6: an empty user id is rejected with a 400
validation error, independently of the ask capability. -/
theorem c6_empty_input_validation_witness :
    stripIsEmpty (NexusFlowRequest.mk "" "hello").user_id = true ∧
    ((∃ d, ask_question_endpoint (fun _ _ => "a") (NexusFlowRequest.mk "" "hello") =
        EndpointResult.httpError 400 d) ∧
     ask_question_endpoint (fun _ _ => "a") (NexusFlowRequest.mk "" "hello") =
       ask_question_endpoint (fun _ _ => "b") (NexusFlowRequest.mk "" "hello")) :=
  ⟨rfl,
   (c6_empty_input_validation (fun _ _ => "a") (fun _ _ => "b")
     (NexusFlowRequest.mk "" "hello")).2 rfl⟩

/-- A user's document count equals the length of the user's persisted
entry list. -/
theorem countDocs_entriesAt (disk : Disk) (sp u : String) :
    countDocs disk sp u = (entriesAt disk sp u).length := by
  cases h : disk (vectorStorePath sp u) with
  | none => simp [countDocs, entriesAt, h]
  | some fs => cases fs <;> simp [countDocs, entriesAt, h]

/-- Appending one entry to some user's persisted index never lowers any
user's document count. -/
theorem countDocs_update_append_ge (disk : Disk) (uid u : String) (e : DocEntry) :
    countDocs disk "user_embeddings" u ≤
      countDocs (updateDisk disk (vectorStorePath "user_embeddings" uid)
        (FileState.good ⟨entriesAt disk "user_embeddings" uid ++ [e]⟩))
        "user_embeddings" u := by
  by_cases hp : vectorStorePath "user_embeddings" u =
      vectorStorePath "user_embeddings" uid
  · rw [countDocs_entriesAt, countDocs_entriesAt]
    have h1 : entriesAt (updateDisk disk (vectorStorePath "user_embeddings" uid)
        (FileState.good ⟨entriesAt disk "user_embeddings" uid ++ [e]⟩))
        "user_embeddings" u = entriesAt disk "user_embeddings" uid ++ [e] := by
      simp [entriesAt, updateDisk, hp]
    have h2 : entriesAt disk "user_embeddings" u =
        entriesAt disk "user_embeddings" uid := by
      simp [entriesAt, hp]
    rw [h1, h2]
    simp
  · rw [countDocs_entriesAt, countDocs_entriesAt]
    have h1 : entriesAt (updateDisk disk (vectorStorePath "user_embeddings" uid)
        (FileState.good ⟨entriesAt disk "user_embeddings" uid ++ [e]⟩))
        "user_embeddings" u = entriesAt disk "user_embeddings" u := by
      simp [entriesAt, updateDisk, hp]
    rw [h1]

/-- Claim C7: append-only growth.  After a successful store for a user,
the total documents reported by `get_user_info` for that user is exactly
one more than before, and no operation of this core ever decreases any
user's document count. -/
theorem c7_append_only_growth (embed : String → List Int) :
    (∀ (files : String → FileContent) (disk : Disk) (newId fp uid : String)
        (ds : Option String) (sp : String) (dirSize : String → Nat),
      (store_user_embedding embed files disk newId fp uid ds sp).1.status = "success" →
      (get_user_info dirSize
          (store_user_embedding embed files disk newId fp uid ds sp).2 uid sp).total_documents
        = some (countDocs disk sp uid + 1) ∧
      (∀ t, (get_user_info dirSize disk uid sp).total_documents = some t →
        t = countDocs disk sp uid)) ∧
    (∀ (disk : Disk) (op : Op) (u : String),
      countDocs disk "user_embeddings" u ≤
        countDocs (applyOp embed disk op) "user_embeddings" u) := by
  constructor
  · intro files disk newId fp uid ds sp dirSize hsucc
    cases hread : files fp with
    | absent => simp [store_user_embedding, hread] at hsucc
    | unreadable => simp [store_user_embedding, hread] at hsucc
    | readable text =>
      by_cases hload : disk (vectorStorePath sp uid) = some FileState.corrupt
      · simp [store_user_embedding, hread, hload] at hsucc
      · have hs := store_success_shape embed files disk newId fp uid ds sp text hread hload
        constructor
        · rw [hs]
          simp [get_user_info, updateDisk, countDocs_entriesAt]
        · intro t ht
          cases hdisk : disk (vectorStorePath sp uid) with
          | none => simp [get_user_info, hdisk] at ht
          | some fs =>
            cases fs with
            | corrupt => exact absurd hdisk hload
            | good vs =>
                simp only [get_user_info, hdisk, Option.some.injEq] at ht
                simp [countDocs, hdisk, ← ht]
  · intro disk op u
    cases op with
    | searchDocs q uid k fsrc => simp [applyOp]
    | describeUser uid => simp [applyOp]
    | storeDoc files newId fp uid ds =>
      simp only [applyOp]
      rcases store_snd_cases embed files disk newId fp uid ds "user_embeddings" with
        heq | ⟨text, hread, hnc, heq⟩
      · rw [heq]
      · rw [heq]
        exact countDocs_update_append_ge disk uid u _

/-- Concrete instance of C7: storing the passport for `U1` takes the
reported total from nothing to one. -/
theorem c7_append_only_growth_witness :
    (store_user_embedding embedW filesW emptyDisk "doc-1" "passport.txt" "U1"
        none "user_embeddings").1.status = "success" ∧
    (get_user_info dirSizeW
        (store_user_embedding embedW filesW emptyDisk "doc-1" "passport.txt" "U1"
          none "user_embeddings").2 "U1" "user_embeddings").total_documents =
      some (countDocs emptyDisk "user_embeddings" "U1" + 1) :=
  ⟨by decide,
   ((c7_append_only_growth embedW).1 filesW emptyDisk "doc-1" "passport.txt" "U1"
     none "user_embeddings" dirSizeW (by decide)).1⟩

/-- A sequence of non-store operations leaves durable storage unchanged. -/
theorem applyOps_no_store (embed : String → List Int) (ops : List Op) :
    ∀ disk : Disk, (∀ op ∈ ops, isStoreOp op = false) →
      applyOps embed disk ops = disk := by
  induction ops with
  | nil => intro disk _; rfl
  | cons op rest ih =>
    intro disk h
    have hop : applyOp embed disk op = disk := by
      cases op with
      | storeDoc files newId fp uid ds =>
          have hcon := h _ (List.mem_cons_self _ _)
          simp [isStoreOp] at hcon
      | searchDocs q u k fsrc => rfl
      | describeUser u => rfl
    have hstep : applyOps embed disk (op :: rest) =
        applyOps embed (applyOp embed disk op) rest := rfl
    rw [hstep, hop]
    exact ih disk (fun o ho => h o (List.mem_cons_of_mem _ ho))

/-- Claim C8: deterministic search.  With the embedding capability a pure
function of the text, a search performs no write, so after any sequence
of non-store operations a repeated search returns the identical ranked
result sequence — same documents, same order, same scores. -/
theorem c8_deterministic_search (embed : String → List Int) (disk : Disk)
    (ops : List Op) (q u : String) (k : Nat) (fsrc : Option String)
    (hnostore : ∀ op ∈ ops, isStoreOp op = false) :
    applyOps embed disk ops = disk ∧
    search_user_embeddings embed (applyOps embed disk ops) q u k fsrc "user_embeddings" =
      search_user_embeddings embed disk q u k fsrc "user_embeddings" := by
  have hfix := applyOps_no_store embed ops disk hnostore
  exact ⟨hfix, by rw [hfix]⟩

/-- Concrete instance of C8: a search and a describe between two searches
change nothing. -/
theorem c8_deterministic_search_witness :
    (∀ op ∈ [Op.searchDocs "other" "U1" 3 none, Op.describeUser "U1"],
      isStoreOp op = false) ∧
    (applyOps embedW diskW [Op.searchDocs "other" "U1" 3 none, Op.describeUser "U1"] = diskW ∧
     search_user_embeddings embedW
        (applyOps embedW diskW [Op.searchDocs "other" "U1" 3 none, Op.describeUser "U1"])
        "pass" "U1" 3 none "user_embeddings" =
       search_user_embeddings embedW diskW "pass" "U1" 3 none "user_embeddings") :=
  ⟨by
    intro op hop
    simp only [List.mem_cons, List.mem_singleton, List.not_mem_nil, or_false] at hop
    rcases hop with h | h
    · rw [h]; rfl
    · rw [h]; rfl,
   c8_deterministic_search embedW diskW
     [Op.searchDocs "other" "U1" 3 none, Op.describeUser "U1"] "pass" "U1" 3 none
     (by
      intro op hop
      simp only [List.mem_cons, List.mem_singleton, List.not_mem_nil, or_false] at hop
      rcases hop with h | h
      · rw [h]; rfl
      · rw [h]; rfl)⟩

/-- An element produced by `getLast?` is a member of the list. -/
theorem getLast?_mem_of_eq {α : Type _} {l : List α} {a : α}
    (h : l.getLast? = some a) : a ∈ l := by
  obtain ⟨hne, rfl⟩ := List.mem_getLast?_eq_getLast (show a ∈ l.getLast? from h ▸ rfl)
  exact List.getLast_mem hne

/-- The accumulation loop of `ask_question` with an explicit accumulator:
it appends exactly the non-empty contents of the last message of each
streamed event, in stream order. -/
theorem gatherResponse_foldl (events : List (List AgentMessage)) (acc : List String) :
    events.foldl
      (fun acc ms =>
        match ms.getLast? with
        | some m => if m.content = "" then acc else acc ++ [m.content]
        | none => acc) acc =
    acc ++ ((events.filterMap List.getLast?).map AgentMessage.content).filter
      (fun s => s != "") := by
  induction events generalizing acc with
  | nil => simp
  | cons e rest ih =>
    cases hl : e.getLast? with
    | none => simp [List.foldl_cons, List.filterMap_cons, hl, ih]
    | some m =>
      by_cases hc : m.content = ""
      · simp [List.foldl_cons, List.filterMap_cons, hl, hc, ih]
      · simp [List.foldl_cons, List.filterMap_cons, hl, hc, ih]

/-- The collected response contents are the non-empty last-message
contents of the streamed events. -/
theorem gatherResponse_eq (events : List (List AgentMessage)) :
    gatherResponse events =
      ((events.filterMap List.getLast?).map AgentMessage.content).filter
        (fun s => s != "") := by
  simpa [gatherResponse] using gatherResponse_foldl events []

/-- Claim C9: non-empty answer guarantee.  `ask_question` returns the
content of the last streamed agent message with non-empty content, and
the exact fixed apology string when no streamed message carries content;
it never returns an empty string. -/
theorem c9_nonempty_answer (agentStream : String → String → List (List AgentMessage))
    (query user_id : String) :
    ask_question agentStream query user_id =
      (((((agentStream (enhancedQuery query user_id) (get_user_config user_id)).filterMap
          List.getLast?).map AgentMessage.content).filter (fun s => s != "")).getLast?).getD
        fallbackAnswer ∧
    ask_question agentStream query user_id ≠ "" := by
  have h1 : ask_question agentStream query user_id =
      (((((agentStream (enhancedQuery query user_id) (get_user_config user_id)).filterMap
          List.getLast?).map AgentMessage.content).filter (fun s => s != "")).getLast?).getD
        fallbackAnswer := by
    simp only [ask_question]
    rw [gatherResponse_eq]
    cases hlast : ((((agentStream (enhancedQuery query user_id)
        (get_user_config user_id)).filterMap
        List.getLast?).map AgentMessage.content).filter (fun s => s != "")).getLast? with
    | none => simp
    | some s => simp
  refine ⟨h1, ?_⟩
  rw [h1]
  cases hlast : ((((agentStream (enhancedQuery query user_id)
      (get_user_config user_id)).filterMap
      List.getLast?).map AgentMessage.content).filter (fun s => s != "")).getLast? with
  | none =>
      simp only [Option.getD_none]
      decide
  | some s =>
      simp only [Option.getD_some]
      have hmem := getLast?_mem_of_eq hlast
      have hs := (List.mem_filter.mp hmem).2
      intro h0
      rw [h0] at hs
      simp at hs

/-- Claim C10, counterexample: `store_user_embedding` does not satisfy
"never raises an exception to its caller".  With a readable source file
and a failing directory creation, the `os.makedirs` call — which runs
outside both try/except blocks — raises, and the exception propagates to
the caller uncaught instead of being converted into a returned error
dictionary. -/
theorem c10_makedirs_uncaught :
    store_user_embedding_full embedW (fun _ => false) filesW emptyDisk "doc-1"
      "passport.txt" "U1" none "user_embeddings" = Except.error "OSError" := rfl

/-- Claim C10, amended: totality of the storage layer except for
directory creation.  Every result dictionary the store path returns has
status `success` or `error`; the store raises an uncaught exception
exactly when the source file was readable and creating the user's
directory fails (the `os.makedirs` call outside both try/except blocks);
and `search_user_embeddings` and `get_user_info` are total functions
that always return a dictionary whose status is `success` or `error`. -/
theorem c10_total_status_amended (embed : String → List Int)
    (mkdirOk : String → Bool) (files : String → FileContent) (disk : Disk)
    (newId fp uid q sp : String) (ds fsrc : Option String) (k : Nat)
    (dirSize : String → Nat) :
    (∀ r, store_user_embedding_full embed mkdirOk files disk newId fp uid ds sp =
        Except.ok r → r.1.status = "success" ∨ r.1.status = "error") ∧
    ((∃ e, store_user_embedding_full embed mkdirOk files disk newId fp uid ds sp =
        Except.error e) ↔
      (∃ text, files fp = FileContent.readable text) ∧
        mkdirOk (userDir sp uid) = false) ∧
    ((search_user_embeddings embed disk q uid k fsrc sp).status = "success" ∨
      (search_user_embeddings embed disk q uid k fsrc sp).status = "error") ∧
    ((get_user_info dirSize disk uid sp).status = "success" ∨
      (get_user_info dirSize disk uid sp).status = "error") := by
  have hstore : (store_user_embedding embed files disk newId fp uid ds sp).1.status
      = "success" ∨
      (store_user_embedding embed files disk newId fp uid ds sp).1.status = "error" := by
    cases hread : files fp with
    | absent => right; simp [store_user_embedding, hread]
    | unreadable => right; simp [store_user_embedding, hread]
    | readable text =>
      by_cases hload : disk (vectorStorePath sp uid) = some FileState.corrupt
      · right; simp [store_user_embedding, hread, hload]
      · left
        rw [store_success_shape embed files disk newId fp uid ds sp text hread hload]
  refine ⟨?_, ⟨?_, ?_⟩, ?_, ?_⟩
  · intro r hr
    cases hread : files fp with
    | absent =>
        simp only [store_user_embedding_full, hread, Except.ok.injEq] at hr
        rw [← hr]; exact hstore
    | unreadable =>
        simp only [store_user_embedding_full, hread, Except.ok.injEq] at hr
        rw [← hr]; exact hstore
    | readable text =>
        simp only [store_user_embedding_full, hread] at hr
        by_cases hmk : mkdirOk (userDir sp uid) = true
        · rw [if_pos hmk] at hr
          simp only [Except.ok.injEq] at hr
          rw [← hr]; exact hstore
        · rw [if_neg hmk] at hr
          simp at hr
  · rintro ⟨e, he⟩
    cases hread : files fp with
    | absent => simp [store_user_embedding_full, hread] at he
    | unreadable => simp [store_user_embedding_full, hread] at he
    | readable text =>
        simp only [store_user_embedding_full, hread] at he
        by_cases hmk : mkdirOk (userDir sp uid) = true
        · rw [if_pos hmk] at he
          simp at he
        · refine ⟨⟨text, rfl⟩, ?_⟩
          cases h2 : mkdirOk (userDir sp uid) with
          | false => rfl
          | true => exact absurd h2 hmk
  · rintro ⟨⟨text, hread⟩, hmk⟩
    refine ⟨"OSError", ?_⟩
    simp [store_user_embedding_full, hread, hmk]
  · cases hdisk : disk (vectorStorePath sp uid) with
    | none => right; simp [search_user_embeddings, hdisk]
    | some fs =>
      cases fs with
      | corrupt => right; simp [search_user_embeddings, hdisk]
      | good vs => left; simp [search_user_embeddings, hdisk]
  · cases hdisk : disk (vectorStorePath sp uid) with
    | none => right; simp [get_user_info, hdisk]
    | some fs =>
      cases fs with
      | corrupt => right; simp [get_user_info, hdisk]
      | good vs => left; simp [get_user_info, hdisk]

/-- Concrete instance of the amended C10: a readable source file with a
failing directory creation makes the store raise uncaught. -/
theorem c10_total_status_amended_witness :
    ((∃ text, filesW "passport.txt" = FileContent.readable text) ∧
      (fun _ => false : String → Bool) (userDir "user_embeddings" "U1") = false) ∧
    (∃ e, store_user_embedding_full embedW (fun _ => false) filesW emptyDisk "doc-1"
        "passport.txt" "U1" none "user_embeddings" = Except.error e) :=
  ⟨⟨⟨"Passport number A1234567", rfl⟩, rfl⟩,
   (c10_total_status_amended embedW (fun _ => false) filesW emptyDisk "doc-1"
      "passport.txt" "U1" "q" "user_embeddings" none none 3 dirSizeW).2.1.mpr
     ⟨⟨"Passport number A1234567", rfl⟩, rfl⟩⟩
